import Mathlib

/-!
Verification of the selection, slug-derivation and index-maintenance logic of
the thesis blog generator (source: the generator script).  JavaScript string
and array operations are embedded as Lean functions over `List Char` /
`List String`; `Math.random()`-driven uniform choice is embedded by passing an
arbitrary natural number `r` and indexing with `r % length`.
-/

set_option maxRecDepth 4000

namespace ThesisBlog

/-! ## Character classes and JS string primitives (for `generateSlug`) -/

/-- Embedding of JS `String.prototype.toLowerCase` (per-character lowering;
agrees with JS on the ASCII strings this program manipulates). -/
def jsToLower (s : String) : String :=
  String.mk (s.data.map Char.toLower)

/-- `a`–`z`, as matched by the regex class `a-z` after lowercasing. -/
def isLowerAlpha (c : Char) : Bool :=
  97 ≤ c.toNat && c.toNat ≤ 122

/-- `0`–`9`, as matched by the regex class `0-9`. -/
def isDigitCh (c : Char) : Bool :=
  48 ≤ c.toNat && c.toNat ≤ 57

/-- Whitespace as matched by the regex class `\s` (ASCII part: space, tab,
LF, VT, FF, CR), which also covers what `String.prototype.trim` strips. -/
def isSlugSpace (c : Char) : Bool :=
  c.toNat = 32 || c.toNat = 9 || c.toNat = 10 || c.toNat = 11 ||
    c.toNat = 12 || c.toNat = 13

/-- A hyphen-minus, as matched by the literal `-` in the regexes. -/
def isHyphen (c : Char) : Bool :=
  c.toNat = 45

/-- Characters kept by `.replace(/[^a-z0-9\s-]/g, "")`. -/
def isSlugKeep (c : Char) : Bool :=
  isLowerAlpha c || isDigitCh c || isSlugSpace c || isHyphen c

/-- Embedding of `.replace(/p+/g, rep)`: every maximal run of characters
satisfying `p` is replaced by the single character `rep`. -/
def squeeze (p : Char → Bool) (rep : Char) : List Char → List Char
  | [] => []
  | [c] => if p c then [rep] else [c]
  | c₁ :: c₂ :: cs =>
    if p c₁ && p c₂ then squeeze p rep (c₂ :: cs)
    else (if p c₁ then rep else c₁) :: squeeze p rep (c₂ :: cs)

/-- Embedding of `String.prototype.trim` on the character list. -/
def trimChars (l : List Char) : List Char :=
  ((l.dropWhile isSlugSpace).reverse.dropWhile isSlugSpace).reverse

/-- The whole `generateSlug` pipeline on the character list:
lowercase, strip non-`[a-z0-9\s-]`, collapse `\s+` runs to `-`,
collapse `-+` runs to `-`, trim, take the first 60 characters. -/
def slugChars (l : List Char) : List Char :=
  (trimChars
    (squeeze isHyphen '-'
      (squeeze isSlugSpace '-'
        ((l.map Char.toLower).filter isSlugKeep)))).take 60

/-- `generateSlug` from the source: lowercase the title, delete characters
outside `[a-z0-9\s-]`, replace whitespace runs by `-`, collapse hyphen runs,
trim, and truncate to 60 characters. -/
def generateSlug (title : String) : String :=
  String.mk (slugChars title.data)

/-- `true` iff the list has no two adjacent characters both satisfying `p`
(used to state "no run of length ≥ 2"). -/
def noRun (p : Char → Bool) : List Char → Bool
  | [] => true
  | [_] => true
  | c₁ :: c₂ :: cs => !(p c₁ && p c₂) && noRun p (c₂ :: cs)

/-! ## Topic pool and topic selection -/

/-- One entry of `TOPIC_POOL`: `{ topic, category, featured }`. -/
structure TopicRec where
  topic : String
  category : String
  featured : Bool
deriving DecidableEq, Repr

/-- The static 30-entry `TOPIC_POOL` from the source. -/
def TOPIC_POOL : List TopicRec := [
  ⟨"How to Write a Compelling Thesis Introduction", "Writing Tips", true⟩,
  ⟨"Mastering Academic Writing Style: Tips for Graduate Students", "Writing Tips", false⟩,
  ⟨"Common Thesis Writing Mistakes and How to Avoid Them", "Writing Tips", true⟩,
  ⟨"How to Write a Strong Thesis Conclusion That Impresses", "Writing Tips", false⟩,
  ⟨"Transition Words and Phrases for Academic Writing", "Writing Tips", false⟩,
  ⟨"How to Improve Your Academic Vocabulary", "Writing Tips", false⟩,
  ⟨"Qualitative vs Quantitative Research: Choosing the Right Method", "Research", true⟩,
  ⟨"How to Conduct a Systematic Literature Review", "Research", true⟩,
  ⟨"Primary vs Secondary Sources: A Complete Guide", "Research", false⟩,
  ⟨"Research Ethics: Guidelines Every Graduate Student Must Know", "Research", false⟩,
  ⟨"How to Find Credible Sources for Your Thesis", "Research", false⟩,
  ⟨"Data Collection Methods for Academic Research", "Research", false⟩,
  ⟨"AI Tools That Will Transform Your Thesis Writing in 2026", "Technology", true⟩,
  ⟨"Best Reference Management Software for Researchers", "Technology", false⟩,
  ⟨"How AI is Revolutionizing Academic Writing", "Technology", true⟩,
  ⟨"Plagiarism Detection Tools: What Every Student Should Know", "Technology", false⟩,
  ⟨"Using AI for Literature Review: A Complete Guide", "Technology", false⟩,
  ⟨"Digital Tools for Organizing Your Research", "Technology", false⟩,
  ⟨"Time Management Strategies for Thesis Writers", "Productivity", true⟩,
  ⟨"How to Overcome Writer's Block When Writing Your Thesis", "Productivity", false⟩,
  ⟨"Creating a Realistic Thesis Writing Schedule", "Productivity", false⟩,
  ⟨"Work-Life Balance During Graduate School", "Productivity", false⟩,
  ⟨"Productivity Apps Every Graduate Student Needs", "Productivity", false⟩,
  ⟨"How to Stay Motivated During Long Research Projects", "Productivity", true⟩,
  ⟨"Complete Guide to Thesis Formatting and Structure", "Guides", true⟩,
  ⟨"APA vs MLA vs Chicago: Citation Styles Explained", "Guides", false⟩,
  ⟨"How to Prepare for Your Thesis Defense", "Guides", true⟩,
  ⟨"Step-by-Step Guide to Writing Your Methodology Chapter", "Guides", false⟩,
  ⟨"Understanding the Thesis Approval Process", "Guides", false⟩,
  ⟨"How to Choose the Perfect Thesis Topic", "Guides", true⟩]

/-- The per-`used` similarity test inside `selectUniqueTopic`: significant
words (length > 4) of the lowercased candidate topic that also occur among the
significant words of `used`, compared against the 40% threshold.  The JS
comparison `matches.length > topicWords.length * 0.4` is exact for the word
counts arising here (double rounding of `n * 0.4` agrees with the rational
`2n/5` for all `n ≤ 20`), so it is embedded as `5 * matches > 2 * total`. -/
def tooSimilar (topicLower used : String) : Bool :=
  let topicWords := (topicLower.split (fun c => c == ' ')).filter (fun w => w.length > 4)
  let usedWords := (used.split (fun c => c == ' ')).filter (fun w => w.length > 4)
  let matched := topicWords.filter (fun w => usedWords.contains w)
  5 * matched.length > 2 * topicWords.length

/-- The `availableTopics` filter of `selectUniqueTopic`: pool records not
too similar to any recently used title. -/
def availableTopics (usedTopics : List String) : List TopicRec :=
  TOPIC_POOL.filter (fun t =>
    !(usedTopics.any (fun used => tooSimilar (jsToLower t.topic) used)))

/-- `topicsToChoose` of `selectUniqueTopic`: the available records when more
than 5 remain, otherwise the full pool. -/
def eligibleTopics (usedTopics : List String) : List TopicRec :=
  let a := availableTopics usedTopics
  if a.length > 5 then a else TOPIC_POOL

/-- `selectUniqueTopic`: uniform random choice among `topicsToChoose`,
embedded by indexing with an arbitrary `r` modulo the length. -/
def selectUniqueTopic (usedTopics : List String) (r : Nat) : TopicRec :=
  let choices := eligibleTopics usedTopics
  choices.getD (r % choices.length) ⟨"", "Guides", false⟩

/-- Embedding of JS `String.prototype.includes`: `needle` occurs as a
contiguous substring of `haystack`. -/
def containsSub (haystack needle : String) : Bool :=
  (List.range (haystack.data.length + 1)).any
    (fun i => needle.data.isPrefixOf (haystack.data.drop i))

/-- The manual-topic matcher: case-insensitive substring match in either
direction between the provided topic and a pool entry. -/
def topicMatches (provided : String) (t : TopicRec) : Bool :=
  containsSub (jsToLower t.topic) (jsToLower provided) ||
    containsSub (jsToLower provided) (jsToLower t.topic)

/-- Topic selection when `TOPIC` is provided: first pool record matching, or
an ad-hoc record with category `Guides` and `featured := false`. -/
def chooseProvidedTopic (provided : String) : TopicRec :=
  match TOPIC_POOL.find? (topicMatches provided) with
  | some t => t
  | none => ⟨provided, "Guides", false⟩

/-! ## Curated images and image selection -/

/-- `categoryImages` from the source, as an association list (key order as in
the object literal). -/
def categoryImages : List (String × List String) := [
  ("Writing Tips", [
    "https://images.unsplash.com/photo-1455390582262-044cdead277a?w=800&q=80",
    "https://images.unsplash.com/photo-1486312338219-ce68d2c6f44d?w=800&q=80",
    "https://images.unsplash.com/photo-1499750310107-5fef28a66643?w=800&q=80",
    "https://images.unsplash.com/photo-1434030216411-0b793f4b4173?w=800&q=80",
    "https://images.unsplash.com/photo-1456324504439-367cee3b3c32?w=800&q=80",
    "https://images.unsplash.com/photo-1488190211105-8b0e65b80b4e?w=800&q=80"]),
  ("Research", [
    "https://images.unsplash.com/photo-1456324463128-7ff6903988d8?w=800&q=80",
    "https://images.unsplash.com/photo-1481627834876-b7833e8f5570?w=800&q=80",
    "https://images.unsplash.com/photo-1524995997946-a1c2e315a42f?w=800&q=80",
    "https://images.unsplash.com/photo-1497633762265-9d179a990aa6?w=800&q=80",
    "https://images.unsplash.com/photo-1513475382585-d06e58bcb0e0?w=800&q=80",
    "https://images.unsplash.com/photo-1507003211169-0a1dd7228f2d?w=800&q=80"]),
  ("Technology", [
    "https://images.unsplash.com/photo-1677442136019-21780ecad995?w=800&q=80",
    "https://images.unsplash.com/photo-1620712943543-bcc4688e7485?w=800&q=80",
    "https://images.unsplash.com/photo-1555255707-c07966088b7b?w=800&q=80",
    "https://images.unsplash.com/photo-1518770660439-4636190af475?w=800&q=80",
    "https://images.unsplash.com/photo-1485827404703-89b55fcc595e?w=800&q=80",
    "https://images.unsplash.com/photo-1519389950473-47ba0277781c?w=800&q=80"]),
  ("Productivity", [
    "https://images.unsplash.com/photo-1484480974693-6ca0a78fb36b?w=800&q=80",
    "https://images.unsplash.com/photo-1506784983877-45594efa4cbe?w=800&q=80",
    "https://images.unsplash.com/photo-1553877522-43269d4ea984?w=800&q=80",
    "https://images.unsplash.com/photo-1551434678-e076c223a692?w=800&q=80",
    "https://images.unsplash.com/photo-1454165804606-c3d57bc86b40?w=800&q=80",
    "https://images.unsplash.com/photo-1522202176988-66273c2fd55f?w=800&q=80"]),
  ("Guides", [
    "https://images.unsplash.com/photo-1523050854058-8df90110c9f1?w=800&q=80",
    "https://images.unsplash.com/photo-1541339907198-e08756dedf3f?w=800&q=80",
    "https://images.unsplash.com/photo-1427504494785-3a9ca7044f45?w=800&q=80",
    "https://images.unsplash.com/photo-1562774053-701939374585?w=800&q=80",
    "https://images.unsplash.com/photo-1523580494863-6f3031224c94?w=800&q=80",
    "https://images.unsplash.com/photo-1503676260728-1c00da094a0b?w=800&q=80"])]

/-- Property lookup `categoryImages[category]` (`none` = `undefined`). -/
def lookupImages (category : String) : Option (List String) :=
  (categoryImages.find? (fun p => p.1 == category)).map (fun p => p.2)

/-- The local `images` of `selectUniqueImage`:
`categoryImages[category] || categoryImages["Guides"]`. -/
def imagesFor (category : String) : List String :=
  (lookupImages category).getD ((lookupImages "Guides").getD [])

/-- The local `availableImages` of `selectUniqueImage`: the category's list
minus recently used URLs. -/
def availableImagesFor (category : String) (usedImages : List String) : List String :=
  (imagesFor category).filter (fun img => !usedImages.contains img)

/-- The local `imagesToChooseFrom` of `selectUniqueImage`: the available
images, or the full list when the exclusion emptied it. -/
def imagesToChooseFrom (category : String) (usedImages : List String) : List String :=
  if (availableImagesFor category usedImages).length > 0 then
    availableImagesFor category usedImages
  else imagesFor category

/-- `selectUniqueImage`: uniform random choice among `imagesToChooseFrom`,
embedded by indexing with an arbitrary `r` modulo the length. -/
def selectUniqueImage (category : String) (usedImages : List String) (r : Nat) : String :=
  (imagesToChooseFrom category usedImages).getD
    (r % (imagesToChooseFrom category usedImages).length) ""

/-! ## Index records, upsert, and history reading -/

/-- One record of the JSON index, with the fields of `newPost`. -/
structure Post where
  slug : String
  title : String
  excerpt : String
  description : String
  date : String
  publishedAt : String
  author : String
  category : String
  tags : List String
  keywords : List String
  image : String
  readTime : String
  featured : Bool
  filename : String
deriving DecidableEq, Repr

/-- The index update of `generateBlogPost`:
`posts = posts.filter(p => p.slug !== slug); posts.unshift(newPost)`. -/
def upsertIndex (posts : List Post) (newPost : Post) : List Post :=
  newPost :: posts.filter (fun p => p.slug != newPost.slug)

/-- Outcome of reading the index file: absent, present but not valid JSON,
or parsed into records. -/
inductive IndexFile where
  | missing
  | unparseable
  | parsed (posts : List Post)
deriving DecidableEq

/-- `getRecentlyUsedImages`: `[]` when the file is missing; `JSON.parse`
failure is caught and yields `[]`; otherwise the images of the first 15
records. -/
def getRecentlyUsedImages (file : IndexFile) : List String :=
  match file with
  | .missing => []
  | .unparseable => []
  | .parsed posts => (posts.take 15).map (fun p => p.image)

/-- `getRecentTopics`: `[]` when the file is missing; `JSON.parse` failure
is caught and yields `[]`; otherwise all titles, lowercased. -/
def getRecentTopics (file : IndexFile) : List String :=
  match file with
  | .missing => []
  | .unparseable => []
  | .parsed posts => posts.map (fun p => jsToLower p.title)

/-! ## The generation pipeline after the API response -/

/-- The parsed AI payload (`blogData`).  `slug` uses `""` for an absent or
empty field (both are falsy under `||` in the source); `keywords` is `none`
when the field is absent (an empty JSON array is truthy and kept). -/
structure BlogData where
  title : String
  slug : String
  description : String
  excerpt : String
  author : String
  tags : List String
  keywords : Option (List String)
  readTime : String
  content : String
deriving DecidableEq

/-- The remote API response: `ok` is `response.ok`; `content` is
`data.choices?.[0]?.message?.content` (`none` when the body does not decode
to JSON with such a field — both paths throw into the same catch). -/
structure ApiResponse where
  ok : Bool
  content : Option String
deriving DecidableEq

/-- The files the run writes: document files (filename, contents) and the
contents of `index.json`. -/
structure FsState where
  docs : List (String × String)
  index : List Post
deriving DecidableEq

/-- `JSON.stringify` on an array of strings (escaping elided; the program
only re-embeds the result textually). -/
def jsonStringifyList (l : List String) : String :=
  "[" ++ String.intercalate "," (l.map (fun s => "\"" ++ s ++ "\"")) ++ "]"

/-- The MDX front-matter-plus-body template of `generateBlogPost`. -/
def renderMdx (blogData : BlogData) (selectedTopic : TopicRec) (selectedImage : String)
    (date nowIso : String) (selectedKeywords : List String) (slug filename : String) : String :=
  "---\n" ++
  "title: \"" ++ blogData.title ++ "\"\n" ++
  "description: \"" ++ blogData.description ++ "\"\n" ++
  "excerpt: \"" ++ blogData.excerpt ++ "\"\n" ++
  "date: \"" ++ date ++ "\"\n" ++
  "publishedAt: \"" ++ nowIso ++ "\"\n" ++
  "author: \"" ++ blogData.author ++ "\"\n" ++
  "category: \"" ++ selectedTopic.category ++ "\"\n" ++
  "tags: " ++ jsonStringifyList blogData.tags ++ "\n" ++
  "keywords: " ++ jsonStringifyList (blogData.keywords.getD selectedKeywords) ++ "\n" ++
  "image: \"" ++ selectedImage ++ "\"\n" ++
  "readTime: \"" ++ blogData.readTime ++ "\"\n" ++
  "featured: " ++ (if selectedTopic.featured then "true" else "false") ++ "\n" ++
  "slug: \"" ++ slug ++ "\"\n" ++
  "filename: \"" ++ filename ++ "\"\n" ++
  "---\n\n" ++
  blogData.content ++ "\n"

/-- The `newPost` record pushed onto the index. -/
def mkNewPost (blogData : BlogData) (selectedTopic : TopicRec) (selectedImage : String)
    (date nowIso : String) (selectedKeywords : List String) (slug filename : String) : Post :=
  { slug := slug
    title := blogData.title
    excerpt := blogData.excerpt
    description := blogData.description
    date := date
    publishedAt := nowIso
    author := blogData.author
    category := selectedTopic.category
    tags := blogData.tags
    keywords := blogData.keywords.getD selectedKeywords
    image := selectedImage
    readTime := blogData.readTime
    featured := selectedTopic.featured
    filename := filename }

/-- The `try` block of `generateBlogPost` from the `fetch` response onward:
a non-ok response, a missing `content`, or a `JSON.parse` failure all throw
into the catch, which exits with code 1 before any file is written; on
success the document file is written and the index is upserted.  The result
is the exit code (`some 1` = `process.exit(1)`, `none` = success) together
with the resulting file state. -/
def runGeneration (resp : ApiResponse) (parse : String → Option BlogData)
    (selectedTopic : TopicRec) (selectedImage : String) (date nowIso : String)
    (selectedKeywords : List String) (st : FsState) : Option Nat × FsState :=
  if resp.ok = false then (some 1, st)
  else
    match resp.content with
    | none => (some 1, st)
    | some content =>
      match parse content with
      | none => (some 1, st)
      | some blogData =>
        let slug := if blogData.slug.isEmpty then generateSlug blogData.title else blogData.slug
        let filename := date ++ "-" ++ slug ++ ".mdx"
        let mdx := renderMdx blogData selectedTopic selectedImage date nowIso selectedKeywords slug filename
        let newPost := mkNewPost blogData selectedTopic selectedImage date nowIso selectedKeywords slug filename
        (none, { docs := (filename, mdx) :: st.docs, index := upsertIndex st.index newPost })

/-! ## Helper lemmas -/

/-- The characters a finished slug may contain: lowercase letters, digits,
hyphen. -/
def isSlugOut (c : Char) : Bool :=
  isLowerAlpha c || isDigitCh c || isHyphen c

theorem getD_mem_of_lt {α : Type} (l : List α) (n : Nat) (d : α) (h : n < l.length) :
    l.getD n d ∈ l := by
  induction l generalizing n with
  | nil => simp at h
  | cons a l ih =>
    cases n with
    | zero => simp
    | succ m =>
      rw [List.getD_cons_succ]
      exact List.mem_cons_of_mem _ (ih m (by simpa using h))

theorem squeeze_chars (p : Char → Bool) (rep : Char) :
    ∀ l, ∀ c ∈ squeeze p rep l, c = rep ∨ (c ∈ l ∧ p c = false) := by
  intro l
  induction l with
  | nil => intro c hc; simp [squeeze] at hc
  | cons a l ih =>
    intro c hc
    cases l with
    | nil =>
      by_cases hpa : p a
      · simp [squeeze, hpa] at hc
        exact Or.inl hc
      · simp [squeeze, hpa] at hc
        subst hc
        exact Or.inr ⟨List.mem_cons_self _ _, by simpa using hpa⟩
    | cons b l' =>
      simp only [squeeze] at hc
      by_cases hab : (p a && p b) = true
      · rw [if_pos hab] at hc
        rcases ih c hc with h | ⟨hm, hp⟩
        · exact Or.inl h
        · exact Or.inr ⟨List.mem_cons_of_mem _ hm, hp⟩
      · rw [if_neg hab] at hc
        rcases List.mem_cons.mp hc with h | h
        · by_cases hpa : p a
          · rw [if_pos hpa] at h; exact Or.inl h
          · rw [if_neg hpa] at h
            subst h
            exact Or.inr ⟨List.mem_cons_self _ _, by simpa using hpa⟩
        · rcases ih c h with h2 | ⟨hm, hp⟩
          · exact Or.inl h2
          · exact Or.inr ⟨List.mem_cons_of_mem _ hm, hp⟩

theorem squeeze_cons_neg (p : Char → Bool) (rep : Char) (a : Char) (l : List Char)
    (h : p a = false) : squeeze p rep (a :: l) = a :: squeeze p rep l := by
  cases l with
  | nil => simp [squeeze, h]
  | cons b l' => simp [squeeze, h]

theorem noRun_cons_neg (p : Char → Bool) (a : Char) (l : List Char) (h : p a = false) :
    noRun p (a :: l) = noRun p l := by
  cases l with
  | nil => simp [noRun]
  | cons b l' => simp [noRun, h]

theorem noRun_tail (p : Char → Bool) (a : Char) (l : List Char)
    (h : noRun p (a :: l) = true) : noRun p l = true := by
  cases l with
  | nil => simp [noRun]
  | cons b l' =>
    simp only [noRun, Bool.and_eq_true] at h
    exact h.2

theorem noRun_squeeze (p : Char → Bool) (rep : Char) :
    ∀ l, noRun p (squeeze p rep l) = true := by
  intro l
  induction l with
  | nil => simp [squeeze, noRun]
  | cons a l ih =>
    cases l with
    | nil => by_cases hpa : p a <;> simp [squeeze, hpa, noRun]
    | cons b l' =>
      simp only [squeeze]
      by_cases hab : (p a && p b) = true
      · rw [if_pos hab]; exact ih
      · rw [if_neg hab]
        by_cases hpa : p a
        · have hpb : p b = false := by
            cases h2 : p b
            · rfl
            · exact absurd (by simp [hpa, h2]) hab
          rw [if_pos hpa, squeeze_cons_neg p rep b l' hpb]
          have hrest : noRun p (b :: squeeze p rep l') = true := by
            rw [← squeeze_cons_neg p rep b l' hpb]; exact ih
          simp only [noRun, Bool.and_eq_true]
          refine ⟨by simp [hpb], ?_⟩
          rw [← squeeze_cons_neg p rep b l' hpb]
          exact ih
        · have hpa' : p a = false := by simpa using hpa
          rw [if_neg hpa, noRun_cons_neg p a _ hpa']
          exact ih

theorem squeeze_id_of_no_p (p : Char → Bool) (rep : Char) :
    ∀ l, (∀ c ∈ l, p c = false) → squeeze p rep l = l := by
  intro l
  induction l with
  | nil => intro _; rfl
  | cons a l ih =>
    intro h
    rw [squeeze_cons_neg p rep a l (h a (List.mem_cons_self a l))]
    rw [ih (fun c hc => h c (List.mem_cons_of_mem _ hc))]

theorem squeeze_id_of_noRun (p : Char → Bool) (rep : Char) :
    ∀ l, noRun p l = true → (∀ c ∈ l, p c = true → c = rep) →
      squeeze p rep l = l := by
  intro l
  induction l with
  | nil => intro _ _; rfl
  | cons a l ih =>
    intro hnr hr
    by_cases hpa : p a
    · cases l with
      | nil =>
        simp only [squeeze, if_pos hpa]
        rw [hr a (List.mem_cons_self _ _) hpa]
      | cons b l' =>
        have hpb : p b = false := by
          simp only [noRun, Bool.and_eq_true, Bool.not_eq_true'] at hnr
          cases h2 : p b
          · rfl
          · rw [hpa, h2] at hnr; simp at hnr
        simp only [squeeze]
        rw [if_neg (by simp [hpb]), if_pos hpa, hr a (List.mem_cons_self _ _) hpa]
        congr 1
        exact ih (noRun_tail p a _ hnr) (fun c hc hpc => hr c (List.mem_cons_of_mem _ hc) hpc)
    · rw [squeeze_cons_neg p rep a l (by simpa using hpa)]
      congr 1
      exact ih (noRun_tail p a l hnr) (fun c hc hpc => hr c (List.mem_cons_of_mem _ hc) hpc)

theorem dropWhile_id_of_no_p (q : Char → Bool) (l : List Char)
    (h : ∀ c ∈ l, q c = false) : l.dropWhile q = l := by
  cases l with
  | nil => rfl
  | cons a l => simp [List.dropWhile_cons, h a (List.mem_cons_self _ _)]

theorem trimChars_id (l : List Char) (h : ∀ c ∈ l, isSlugSpace c = false) :
    trimChars l = l := by
  unfold trimChars
  rw [dropWhile_id_of_no_p _ l h]
  rw [dropWhile_id_of_no_p _ l.reverse (fun c hc => h c (List.mem_reverse.mp hc))]
  exact List.reverse_reverse l

theorem noRun_take (p : Char → Bool) :
    ∀ (l : List Char) (n : Nat), noRun p l = true → noRun p (l.take n) = true := by
  intro l
  induction l with
  | nil => intro n _; simp [noRun]
  | cons a l ih =>
    intro n h
    cases n with
    | zero => simp [noRun]
    | succ m =>
      cases l with
      | nil => cases m <;> simp [noRun]
      | cons b l' =>
        cases m with
        | zero => simp [noRun]
        | succ k =>
          have h2 := ih (k + 1) (noRun_tail p a (b :: l') h)
          simp only [List.take_succ_cons] at h2 ⊢
          simp only [noRun, Bool.and_eq_true] at h ⊢
          exact ⟨h.1, h2⟩

theorem slugOut_not_space (c : Char) (h : isSlugOut c = true) : isSlugSpace c = false := by
  simp only [isSlugOut, isLowerAlpha, isDigitCh, isHyphen, Bool.or_eq_true,
    Bool.and_eq_true, decide_eq_true_eq] at h
  simp only [isSlugSpace, Bool.or_eq_false_iff, decide_eq_false_iff_not]
  omega

theorem toLower_id_of_slugOut (c : Char) (h : isSlugOut c = true) : c.toLower = c := by
  have h' : ¬(c.toNat ≥ 65 ∧ c.toNat ≤ 90) := by
    simp only [isSlugOut, isLowerAlpha, isDigitCh, isHyphen, Bool.or_eq_true,
      Bool.and_eq_true, decide_eq_true_eq] at h
    omega
  simp only [Char.toLower]
  rw [if_neg h']

theorem map_toLower_id (l : List Char) (h : ∀ c ∈ l, isSlugOut c = true) :
    l.map Char.toLower = l := by
  induction l with
  | nil => rfl
  | cons a l ih =>
    simp only [List.map_cons]
    rw [toLower_id_of_slugOut a (h a (List.mem_cons_self _ _)),
      ih (fun c hc => h c (List.mem_cons_of_mem _ hc))]

theorem eq_hyphen_of_isHyphen (c : Char) (h : isHyphen c = true) : c = '-' := by
  simp only [isHyphen, decide_eq_true_eq] at h
  have ht : c.val.toNat = ('-').val.toNat := by
    have h45 : ('-').val.toNat = 45 := by decide
    simp only [Char.toNat] at h
    omega
  exact Char.ext (UInt32.ext_iff.mpr ht)

theorem slugChars_out (l : List Char) : ∀ c ∈ slugChars l, isSlugOut c = true := by
  intro c hc
  unfold slugChars at hc
  have hc3 : c ∈ squeeze isHyphen '-' (squeeze isSlugSpace '-'
      ((l.map Char.toLower).filter isSlugKeep)) := by
    have h1 := List.take_subset 60 _ hc
    rwa [trimChars_id] at h1
    intro d hd
    rcases squeeze_chars isHyphen '-' _ d hd with rfl | ⟨hd2, _⟩
    · decide
    · rcases squeeze_chars isSlugSpace '-' _ d hd2 with rfl | ⟨_, hnsp⟩
      · decide
      · exact hnsp
  rcases squeeze_chars isHyphen '-' _ c hc3 with rfl | ⟨hc2, _⟩
  · decide
  · rcases squeeze_chars isSlugSpace '-' _ c hc2 with rfl | ⟨hc1, hnsp⟩
    · decide
    · have hk := (List.mem_filter.mp hc1).2
      simp only [isSlugKeep, Bool.or_eq_true] at hk
      simp only [isSlugOut, Bool.or_eq_true]
      rcases hk with ((h | h) | h) | h
      · exact Or.inl (Or.inl h)
      · exact Or.inl (Or.inr h)
      · rw [h] at hnsp; cases hnsp
      · exact Or.inr h

theorem slugChars_len (l : List Char) : (slugChars l).length ≤ 60 := by
  unfold slugChars
  rw [List.length_take]
  exact Nat.min_le_left _ _

theorem slugChars_noRun (l : List Char) : noRun isHyphen (slugChars l) = true := by
  unfold slugChars
  apply noRun_take
  have hns : ∀ d ∈ squeeze isHyphen '-' (squeeze isSlugSpace '-'
      ((l.map Char.toLower).filter isSlugKeep)), isSlugSpace d = false := by
    intro d hd
    rcases squeeze_chars isHyphen '-' _ d hd with rfl | ⟨hd2, _⟩
    · decide
    · rcases squeeze_chars isSlugSpace '-' _ d hd2 with rfl | ⟨_, hnsp⟩
      · decide
      · exact hnsp
  rw [trimChars_id _ hns]
  exact noRun_squeeze isHyphen '-' _

/-! ## Claim theorems -/

/-- C10: for every input string, `generateSlug` produces a string of length
at most 60 whose characters are lowercase ASCII letters, digits or hyphens,
with no two consecutive hyphens; leading or trailing hyphens are possible,
because `trim` runs only after whitespace has been turned into hyphens
(witnessed by `" a" ↦ "-a"` and `"a " ↦ "a-"`). -/
theorem generateSlug_shape (s : String) :
    (generateSlug s).length ≤ 60 ∧
    (∀ c ∈ (generateSlug s).data, isSlugOut c = true) ∧
    noRun isHyphen (generateSlug s).data = true ∧
    generateSlug " a" = "-a" ∧ generateSlug "a " = "a-" := by
  refine ⟨?_, ?_, ?_, by decide, by decide⟩
  · exact slugChars_len s.data
  · exact slugChars_out s.data
  · exact slugChars_noRun s.data

/-- C3 (amended): `generateSlug` is the identity on strings that are already
lowercase, at most 60 characters, made only of lowercase letters, digits and
hyphens, and contain no two consecutive hyphens. -/
theorem generateSlug_idempotent (s : String) (h1 : s.length ≤ 60)
    (h2 : ∀ c ∈ s.data, isSlugOut c = true)
    (h3 : noRun isHyphen s.data = true) :
    generateSlug s = s := by
  have hnosp : ∀ c ∈ s.data, isSlugSpace c = false :=
    fun c hc => slugOut_not_space c (h2 c hc)
  unfold generateSlug slugChars
  rw [map_toLower_id _ h2]
  rw [List.filter_eq_self.mpr (fun c hc => by
    have := h2 c hc
    simp only [isSlugOut, Bool.or_eq_true] at this
    simp only [isSlugKeep, Bool.or_eq_true]
    tauto)]
  rw [squeeze_id_of_no_p _ _ _ hnosp]
  rw [squeeze_id_of_noRun _ _ _ h3 (fun c _ hc => eq_hyphen_of_isHyphen c hc)]
  rw [trimChars_id _ hnosp]
  rw [List.take_of_length_le h1]

/-- C3 (counterexample to the claim as stated): `"a--b"` is lowercase, short
enough and made only of slug characters, yet `generateSlug` collapses the
double hyphen, so the map is not the identity on it. -/
theorem generateSlug_not_id_on_double_hyphen :
    ("a--b".length ≤ 60 ∧ (∀ c ∈ "a--b".data, isSlugOut c = true)) ∧
    generateSlug "a--b" ≠ "a--b" := by
  refine ⟨⟨by decide, by decide⟩, by decide⟩

/-- C3 witness: the amended idempotence theorem applied to `"a-b"`. -/
theorem generateSlug_idempotent_witness : generateSlug "a-b" = "a-b" :=
  generateSlug_idempotent "a-b" (by decide) (by decide) (by decide)

/-- C10 witness: the shape theorem applied to a concrete title. -/
theorem generateSlug_shape_witness :
    (generateSlug "Hello, World!").length ≤ 60 ∧
    (∀ c ∈ (generateSlug "Hello, World!").data, isSlugOut c = true) ∧
    noRun isHyphen (generateSlug "Hello, World!").data = true ∧
    generateSlug " a" = "-a" ∧ generateSlug "a " = "a-" :=
  generateSlug_shape "Hello, World!"

/-- C1: whatever the recent titles and the random draw, `selectUniqueTopic`
returns a member of the eligible set (`availableTopics` when more than 5 pool
records survive the 40%-overlap filter, the full 30-entry pool otherwise);
in the filtered case the result is over the 40% significant-word overlap
threshold with no recent title. -/
theorem selectUniqueTopic_spec (usedTopics : List String) (r : Nat) :
    selectUniqueTopic usedTopics r ∈ eligibleTopics usedTopics ∧
    (5 < (availableTopics usedTopics).length →
      ∀ used ∈ usedTopics,
        tooSimilar (jsToLower (selectUniqueTopic usedTopics r).topic) used = false) ∧
    TOPIC_POOL.length = 30 := by
  have hpool : 0 < TOPIC_POOL.length := by decide
  have hpos : 0 < (eligibleTopics usedTopics).length := by
    unfold eligibleTopics
    by_cases h5 : (availableTopics usedTopics).length > 5
    · rw [if_pos h5]; omega
    · rw [if_neg h5]; exact hpool
  have hmem : selectUniqueTopic usedTopics r ∈ eligibleTopics usedTopics := by
    unfold selectUniqueTopic
    exact getD_mem_of_lt _ _ _ (Nat.mod_lt _ hpos)
  refine ⟨hmem, ?_, by decide⟩
  intro h5 used hu
  have he : eligibleTopics usedTopics = availableTopics usedTopics := by
    unfold eligibleTopics
    rw [if_pos h5]
  rw [he] at hmem
  have hpred := (List.mem_filter.mp hmem).2
  simp only [Bool.not_eq_true', List.any_eq_false] at hpred
  simpa using hpred used hu

/-- C1 witness: with no recent titles, the selected record is eligible. -/
theorem selectUniqueTopic_spec_witness :
    selectUniqueTopic [] 0 ∈ eligibleTopics [] :=
  (selectUniqueTopic_spec [] 0).1

/-- C2: after the upsert (filter out the new slug, prepend the new record),
the index contains exactly one record with the new slug, it equals the new
record, and it sits at position 0. -/
theorem upsertIndex_unique_slug (posts : List Post) (newPost : Post)
    (_h : ∃ p ∈ posts, p.slug = newPost.slug) :
    (upsertIndex posts newPost).filter (fun p => p.slug == newPost.slug) = [newPost] ∧
    (upsertIndex posts newPost).head? = some newPost := by
  constructor
  · unfold upsertIndex
    rw [List.filter_cons_of_pos (by simp)]
    have hnil : (posts.filter (fun p => p.slug != newPost.slug)).filter
        (fun p => p.slug == newPost.slug) = [] := by
      rw [List.filter_eq_nil_iff]
      intro a ha
      have := (List.mem_filter.mp ha).2
      simpa using this
    rw [hnil]
  · rfl

/-- A sample index record with slug `"x"` (for witnesses). -/
def samplePostOld : Post :=
  ⟨"x", "Old Title", "old excerpt", "old description", "2026-01-01",
    "2026-01-01T00:00:00.000Z", "Thesis Generator Research Team", "Guides",
    ["thesis"], ["thesis writing"], "https://images.unsplash.com/old", "5 min read",
    false, "2026-01-01-x.mdx"⟩

/-- A newer index record, also with slug `"x"` (for witnesses). -/
def samplePostNew : Post :=
  ⟨"x", "New Title", "new excerpt", "new description", "2026-02-01",
    "2026-02-01T00:00:00.000Z", "Thesis Generator Research Team", "Research",
    ["research"], ["thesis writing help"], "https://images.unsplash.com/new",
    "6 min read", true, "2026-02-01-x.mdx"⟩

/-- C2 witness: upserting the new `"x"` record over an index holding an old
`"x"` record. -/
theorem upsertIndex_unique_slug_witness :
    (upsertIndex [samplePostOld] samplePostNew).filter
      (fun p => p.slug == samplePostNew.slug) = [samplePostNew] ∧
    (upsertIndex [samplePostOld] samplePostNew).head? = some samplePostNew :=
  upsertIndex_unique_slug [samplePostOld] samplePostNew
    ⟨samplePostOld, by decide, by decide⟩

/-- C5: the upsert preserves the index invariant that no two records share
a slug. -/
theorem upsertIndex_nodup (posts : List Post) (newPost : Post)
    (h : (posts.map Post.slug).Nodup) :
    ((upsertIndex posts newPost).map Post.slug).Nodup := by
  unfold upsertIndex
  rw [List.map_cons, List.nodup_cons]
  constructor
  · intro hmem
    obtain ⟨p, hp, hps⟩ := List.mem_map.mp hmem
    have hpred := (List.mem_filter.mp hp).2
    rw [hps] at hpred
    simp at hpred
  · exact h.sublist (List.Sublist.map _ (List.filter_sublist _))

/-- C5 witness: the slug-uniqueness invariant survives a concrete upsert. -/
theorem upsertIndex_nodup_witness :
    ((upsertIndex [samplePostOld] samplePostNew).map Post.slug).Nodup :=
  upsertIndex_nodup [samplePostOld] samplePostNew (by decide)

/-- C4: a non-ok API response makes the run exit with code 1 before any
document or index write; the file state is returned unchanged. -/
theorem apiError_exits_without_writes (resp : ApiResponse)
    (parse : String → Option BlogData) (selectedTopic : TopicRec)
    (selectedImage : String) (date nowIso : String)
    (selectedKeywords : List String) (st : FsState) (h : resp.ok = false) :
    runGeneration resp parse selectedTopic selectedImage date nowIso selectedKeywords st
      = (some 1, st) := by
  unfold runGeneration
  rw [if_pos h]

/-- C4 witness: concrete failing response, empty file state. -/
theorem apiError_exits_without_writes_witness :
    runGeneration ⟨false, none⟩ (fun _ => none) ⟨"t", "Guides", false⟩ "img"
      "2026-01-01" "now" [] ⟨[], []⟩ = (some 1, ⟨[], []⟩) :=
  apiError_exits_without_writes _ _ _ _ _ _ _ _ rfl

/-- C6: when the recently-used list covers a category's entire curated list,
`selectUniqueImage` still returns a member of that category's full list. -/
theorem selectUniqueImage_exhausted (category : String) (usedImages : List String)
    (r : Nat) (imgs : List String) (hcat : lookupImages category = some imgs)
    (hall : ∀ img ∈ imgs, img ∈ usedImages) :
    selectUniqueImage category usedImages r ∈ imgs := by
  have hne : imgs ≠ [] := by
    have hv : ∀ p ∈ categoryImages, p.2 ≠ [] := by decide
    unfold lookupImages at hcat
    obtain ⟨q, hq, hq2⟩ := Option.map_eq_some'.mp hcat
    rw [← hq2]
    exact hv q (List.mem_of_find?_eq_some hq)
  have him : imagesFor category = imgs := by
    unfold imagesFor
    rw [hcat, Option.getD_some]
  have hempty : availableImagesFor category usedImages = [] := by
    unfold availableImagesFor
    rw [him, List.filter_eq_nil_iff]
    intro a ha
    simp [hall a ha]
  have hch : imagesToChooseFrom category usedImages = imgs := by
    unfold imagesToChooseFrom
    rw [hempty, him]
    simp
  unfold selectUniqueImage
  rw [hch]
  exact getD_mem_of_lt _ _ _ (Nat.mod_lt _ (List.length_pos.mpr hne))

/-- C6 witness: the `Guides` list exhausted by the used list. -/
theorem selectUniqueImage_exhausted_witness :
    selectUniqueImage "Guides" ((lookupImages "Guides").getD []) 0
      ∈ (lookupImages "Guides").getD [] :=
  selectUniqueImage_exhausted "Guides" ((lookupImages "Guides").getD []) 0
    ((lookupImages "Guides").getD []) (by decide) (fun _ h => h)

/-- C7: an unrecognized category falls back to the `Guides` curated list,
and the returned URL is drawn from that list. -/
theorem selectUniqueImage_unknown_category (category : String)
    (usedImages : List String) (r : Nat) (h : lookupImages category = none) :
    selectUniqueImage category usedImages r ∈ (lookupImages "Guides").getD [] := by
  have him : imagesFor category = (lookupImages "Guides").getD [] := by
    unfold imagesFor
    rw [h, Option.getD_none]
  unfold selectUniqueImage imagesToChooseFrom
  by_cases hav : (availableImagesFor category usedImages).length > 0
  · rw [if_pos hav]
    have hmem := getD_mem_of_lt (availableImagesFor category usedImages)
      (r % (availableImagesFor category usedImages).length) "" (Nat.mod_lt _ hav)
    have hsub : availableImagesFor category usedImages ⊆ imagesFor category := by
      unfold availableImagesFor
      exact (List.filter_sublist _).subset
    have hmem2 := hsub hmem
    rwa [him] at hmem2
  · rw [if_neg hav]
    have hpos : 0 < (imagesFor category).length := by
      rw [him]; decide
    rw [him] at hpos ⊢
    exact getD_mem_of_lt _ _ _ (Nat.mod_lt _ hpos)

/-- C7 witness: a category name absent from the curated map. -/
theorem selectUniqueImage_unknown_category_witness :
    selectUniqueImage "Cooking" [] 0 ∈ (lookupImages "Guides").getD [] :=
  selectUniqueImage_unknown_category "Cooking" [] 0 (by decide)

/-- C8: with a caller-supplied topic, the selection is the first pool record
matching case-insensitively as a substring in either direction, falling back
to an ad-hoc `Guides`/non-featured record; the override `"Thesis Defense"`
matches the pool entry `"How to Prepare for Your Thesis Defense"` with
category `Guides` and `featured := true`. -/
theorem chooseProvidedTopic_spec :
    (∀ provided t, chooseProvidedTopic provided = t →
      (t ∈ TOPIC_POOL ∧ topicMatches provided t = true) ∨
        t = ⟨provided, "Guides", false⟩) ∧
    chooseProvidedTopic "Thesis Defense"
      = ⟨"How to Prepare for Your Thesis Defense", "Guides", true⟩ := by
  constructor
  · intro provided t h
    unfold chooseProvidedTopic at h
    cases hf : TOPIC_POOL.find? (topicMatches provided) with
    | none => rw [hf] at h; exact Or.inr h.symm
    | some t' =>
      rw [hf] at h
      cases h
      exact Or.inl ⟨List.mem_of_find?_eq_some hf, List.find?_some hf⟩
  · decide

/-- C8 witness: the concrete `"Thesis Defense"` scenario. -/
theorem chooseProvidedTopic_spec_witness :
    chooseProvidedTopic "Thesis Defense"
      = ⟨"How to Prepare for Your Thesis Defense", "Guides", true⟩ :=
  chooseProvidedTopic_spec.2

/-- C9: a missing or unparseable index yields the empty history from both
reader functions, and they are total (no exception is modelled or needed). -/
theorem historyReaders_best_effort (file : IndexFile)
    (h : file = IndexFile.missing ∨ file = IndexFile.unparseable) :
    getRecentlyUsedImages file = [] ∧ getRecentTopics file = [] := by
  rcases h with h | h <;> subst h <;> exact ⟨rfl, rfl⟩

/-- C9 witness: the missing-file case. -/
theorem historyReaders_best_effort_witness :
    getRecentlyUsedImages IndexFile.missing = [] ∧
    getRecentTopics IndexFile.missing = [] :=
  historyReaders_best_effort IndexFile.missing (Or.inl rfl)

end ThesisBlog
